import Mathlib

/-!
Verification of the build script `bbox_setup.py`.

The script has two components:
* `locate_cuda` — discovers the CUDA toolchain root (via the `CUDAHOME`
  environment variable, or by searching the executable search path for
  `nvcc`), derives the `home`/`nvcc`/`include`/`lib64` paths and validates
  that each exists on disk;
* `customize_compiler_for_nvcc` — installs a dispatching `compile` method
  that inspects the extension of the first source file of each invocation,
  selects the `nvcc`- or `gcc`-keyed flag list from the `extra_postargs`
  mapping, and delegates to the saved original compile method with the
  selected flat list in place of the mapping.

Filesystem paths handled by the locator are modelled as lists of path
components (`os.path.join` appends a component, `os.path.dirname` drops the
last one).  The filesystem itself is modelled as the finite set of paths for
which `os.path.exists` holds, together with the finite set of paths that
pass `shutil.which`'s access check (existing and executable).  Exceptions
are modelled with `Except`: a Python `raise` becomes `.error e`, and since
the dispatching `compile` returns the record of arguments it hands to the
saved original method, an `.error` result witnesses that zero calls to the
base compile operation were made.
-/

namespace BboxSetup

/-- A filesystem path, as its list of components.  `pjoin p c = p ++ [c]`,
`os.path.dirname p = p.dropLast`. -/
abbrev Path := List String

/-- The filesystem state the locator probes: `existing` is the set of paths
for which `os.path.exists` returns true; `execPaths` is the set of paths
that pass the existence-and-executability access check used by
`shutil.which`. -/
structure FS where
  existing : List Path
  execPaths : List Path
deriving DecidableEq

/-- `os.path.exists`. -/
def fsExists (fs : FS) (p : Path) : Bool := fs.existing.contains p

/-- The access check `shutil.which` applies to each candidate. -/
def fsExec (fs : FS) (p : Path) : Bool := fs.execPaths.contains p

/-- `shutil.which name`: walk the directories of the executable search path
in order and return `dir/name` for the first directory whose candidate
passes the access check (source line 42 uses it for `nvcc`). -/
def which (name : String) : List Path → FS → Option Path
  | [], _ => none
  | d :: rest, fs =>
    if fsExec fs (d ++ [name]) then some (d ++ [name]) else which name rest fs

/-- The result dict of `locate_cuda` (keys `home`, `nvcc`, `include`,
`lib64`, source lines 49-51). -/
structure CudaConfig where
  home : Path
  nvcc : Path
  include_ : Path
  lib64 : Path
deriving DecidableEq

/-- The two `EnvironmentError` raise sites of `locate_cuda`: line 44 (nvcc
not found on the search path) and line 54 (a derived path missing on disk,
carrying the dict key and the offending path). -/
inductive LocateError where
  | notFound
  | pathInvalid (key : String) (path : Path)
deriving DecidableEq

/-- Render a component path the way the script's strings do. -/
def renderPath (p : Path) : String := String.intercalate "/" p

/-- The message of the line-44 `EnvironmentError`, verbatim from the source. -/
def notFoundMsg : String :=
  "The nvcc binary could not be located in your $PATH. Either add it to your path, or set $CUDAHOME"

/-- The message each `LocateError` is raised with (lines 44-45 and 54). -/
def locateErrMsg : LocateError → String
  | .notFound => notFoundMsg
  | .pathInvalid k v => "The CUDA " ++ k ++ " path could not be located in " ++ renderPath v

/-- Lines 36-47 of `locate_cuda`: resolve `home` and `nvcc`, either from the
`CUDAHOME` environment variable (taken verbatim, `nvcc = home/bin/nvcc`) or
by searching the executable search path, with
`home = dirname(dirname(nvcc))`. -/
def resolveHome (env : Option Path) (pathDirs : List Path) (fs : FS) :
    Except LocateError (Path × Path) :=
  match env with
  | some home => .ok (home, home ++ ["bin", "nvcc"])
  | none =>
    match which "nvcc" pathDirs fs with
    | none => .error .notFound
    | some nvcc => .ok (nvcc.dropLast.dropLast, nvcc)

/-- The validation list of lines 49-52: the items of the `cudaconfig` dict
in insertion order `home`, `nvcc`, `include`, `lib64`. -/
def cudaChecks (home nvcc : Path) : List (String × Path) :=
  [("home", home), ("nvcc", nvcc),
   ("include", home ++ ["include"]), ("lib64", home ++ ["lib", "x64"])]

/-- `locate_cuda` (source lines 26-56): resolve `home`/`nvcc`, validate the
four derived paths in dict insertion order raising on the first missing one,
and otherwise return the config. -/
def locate_cuda (env : Option Path) (pathDirs : List Path) (fs : FS) :
    Except LocateError CudaConfig :=
  match resolveHome env pathDirs fs with
  | .error e => .error e
  | .ok (home, nvcc) =>
    match (cudaChecks home nvcc).find? (fun kv => !(fsExists fs kv.2)) with
    | some kv => .error (.pathInvalid kv.1 kv.2)
    | none => .ok ⟨home, nvcc, home ++ ["include"], home ++ ["lib", "x64"]⟩

/-- Largest index of `l` whose element satisfies `p` (Python `str.rfind`
restricted to a character class). -/
def lastIdxWhere (p : Char → Bool) (l : List Char) : Option Nat :=
  ((l.enum.filter (fun ic => p ic.2)).getLast?).map (fun ic => ic.1)

/-- `os.path.splitext(s)[1]` (source line 89): the suffix of `s` from its
last dot, provided that dot lies in the last path component and is preceded
there by at least one non-dot character; otherwise the empty string.  Both
`/` and `\` are accepted as component separators, as on the script's target
platform. -/
def splitextExt (s : String) : String :=
  let l := s.toList
  let start : Nat :=
    match lastIdxWhere (fun c => c == '/' || c == '\\') l with
    | none => 0
    | some i => i + 1
  match lastIdxWhere (fun c => c == '.') l with
  | none => ""
  | some d =>
    if start ≤ d then
      if ((l.drop start).take (d - start)).any (fun c => !(c == '.')) then
        String.mk (l.drop d)
      else ""
    else ""

/-- The `extra_postargs` dict handed to the dispatching `compile`: at most
one flag list under the key `gcc` and one under the key `nvcc` (the only
keys the script ever looks up). -/
structure PostArgs where
  gcc : Option (List String)
  nvcc : Option (List String)
deriving DecidableEq

/-- The errors the dispatching `compile` can raise before delegating:
`sources[0]` on an empty list raises `IndexError` (line 89), and a dict
lookup on a missing key raises `KeyError` carrying that key (lines 96/98). -/
inductive CompileError where
  | indexError
  | keyError (key : String)
deriving DecidableEq

/-- The message of each `CompileError` as Python formats it (`str` of an
`IndexError` from list indexing, and `str` of a `KeyError`, which is the
`repr` of the missing key). -/
def compileErrMsg : CompileError → String
  | .indexError => "list index out of range"
  | .keyError k => "\x27" ++ k ++ "\x27"

/-- The argument record of the single delegated invocation of the saved
original compile method (line 101).  The arguments the dispatch layer never
inspects are kept abstract as type parameters. -/
structure BaseCall (α β γ δ ε ζ : Type) where
  sources : List String
  output_dir : α
  macroDefs : β
  include_dirs : γ
  debug : δ
  extra_preargs : ε
  postargs : List String
  depends : ζ
deriving DecidableEq

/-- The dispatching `compile` installed by `customize_compiler_for_nvcc`
(source lines 88-101): read the extension of the first source file, select
the `nvcc`-keyed flag list when it is `.cu` and the `gcc`-keyed one
otherwise, and delegate to the saved original method with every other
argument untouched.  A successful result is the record of the one delegated
call; an `.error` result is a raised exception, with no delegated call. -/
def compile {α β γ δ ε ζ : Type} (sources : List String) (output_dir : α)
    (macroDefs : β) (include_dirs : γ) (debug : δ) (extra_preargs : ε)
    (extra_postargs : PostArgs) (depends : ζ) :
    Except CompileError (BaseCall α β γ δ ε ζ) :=
  match sources with
  | [] => .error .indexError
  | s :: _ =>
    let sel : Except CompileError (List String) :=
      if splitextExt s = ".cu" then
        match extra_postargs.nvcc with
        | some l => .ok l
        | none => .error (.keyError "nvcc")
      else
        match extra_postargs.gcc with
        | some l => .ok l
        | none => .error (.keyError "gcc")
    match sel with
    | .error e => .error e
    | .ok postargs =>
      .ok ⟨sources, output_dir, macroDefs, include_dirs, debug,
           extra_preargs, postargs, depends⟩

/-- Whether `needle` occurs contiguously inside `hay`. -/
def subOccurs (n : List Char) : List Char → Bool
  | [] => n.isEmpty
  | c :: rest => n.isPrefixOf (c :: rest) || subOccurs n rest

/-- Substring test on strings, used to state what an error message names. -/
def containsSub (needle hay : String) : Bool := subOccurs needle.toList hay.toList

/-- A result of `locate_cuda` either failed, or its descriptor took the
`CUDAHOME` value `h` verbatim as root with the compiler at `h/bin/nvcc`. -/
def usesHomeVerbatim (h : Path) (r : Except LocateError CudaConfig) : Bool :=
  match r with
  | .ok cfg => cfg.home == h && cfg.nvcc == h ++ ["bin", "nvcc"]
  | .error _ => true

/-- Whether a locator result is the path-invalid error (the line-54 raise). -/
def isPathInvalid : Except LocateError CudaConfig → Bool
  | .error (.pathInvalid _ _) => true
  | _ => false

example : splitextExt "k.cu" = ".cu" := by decide
example : splitextExt "k.CU" = ".CU" := by decide
example : splitextExt ".cu" = "" := by decide
example : splitextExt "a/b.c" = ".c" := by decide
example : splitextExt "dir.d/k" = "" := by decide

/-- C1: for a compile invocation with a non-empty source list and an
`extra_postargs` mapping holding both toolchain keys, the base compile
operation receives the `nvcc`-keyed flag list when the first source file's
extension is `.cu` and the `gcc`-keyed flag list for any other extension,
in place of the mapping. -/
theorem compile_dispatches_on_first_ext {α β γ δ ε ζ : Type} (s : String)
    (rest : List String) (o : α) (m : β) (i : γ) (d : δ) (pre : ε)
    (pa : PostArgs) (dep : ζ) (nv g : List String)
    (h1 : pa.nvcc = some nv) (h2 : pa.gcc = some g) :
    compile (s :: rest) o m i d pre pa dep =
      .ok ⟨s :: rest, o, m, i, d, pre,
           if splitextExt s = ".cu" then nv else g, dep⟩ := by
  by_cases hc : splitextExt s = ".cu" <;> simp [compile, hc, h1, h2]

/-- C1 witness: a `.cu` source selects the `nvcc` flag list. -/
theorem compile_dispatches_on_first_ext_witness :
    @compile Unit Unit Unit Unit Unit Unit ["k.cu"] () () () () ()
        ⟨some ["-O2"], some ["-arch=sm_35"]⟩ () =
      .ok ⟨["k.cu"], (), (), (), (), (),
           if splitextExt "k.cu" = ".cu" then ["-arch=sm_35"] else ["-O2"], ()⟩ :=
  compile_dispatches_on_first_ext "k.cu" [] () () () () ()
    ⟨some ["-O2"], some ["-arch=sm_35"]⟩ () ["-arch=sm_35"] ["-O2"] rfl rfl

/-- C9: a compile invocation with an empty source list raises (the
`sources[0]` index on line 89 fails) and never reaches the delegated base
compile call. -/
theorem compile_empty_sources_raises {α β γ δ ε ζ : Type} (o : α) (m : β)
    (i : γ) (d : δ) (pre : ε) (pa : PostArgs) (dep : ζ) :
    @compile α β γ δ ε ζ [] o m i d pre pa dep = .error .indexError := rfl

/-- C10: toolchain selection is exact case-sensitive equality of the first
source file's extension with `.cu`: any other extension (including `.CU`,
`.cuh`, `.cpp` or none) selects the `gcc`-keyed flag list, never the
`nvcc`-keyed one. -/
theorem compile_non_cu_selects_gcc {α β γ δ ε ζ : Type} (s : String)
    (rest : List String) (o : α) (m : β) (i : γ) (d : δ) (pre : ε)
    (pa : PostArgs) (dep : ζ) (g : List String)
    (hne : splitextExt s ≠ ".cu") (hg : pa.gcc = some g) :
    compile (s :: rest) o m i d pre pa dep =
      .ok ⟨s :: rest, o, m, i, d, pre, g, dep⟩ := by
  simp [compile, hne, hg]

/-- C10 witness: the upper-case extension `.CU` selects the `gcc` list. -/
theorem compile_non_cu_selects_gcc_witness :
    @compile Unit Unit Unit Unit Unit Unit ["k.CU"] () () () () ()
        ⟨some ["-O2"], some ["-arch=sm_35"]⟩ () =
      .ok ⟨["k.CU"], (), (), (), (), (), ["-O2"], ()⟩ :=
  compile_non_cu_selects_gcc "k.CU" [] () () () () ()
    ⟨some ["-O2"], some ["-arch=sm_35"]⟩ () ["-O2"] (by decide) rfl

/-- C2 counterexample: with sources `["k.cu"]` and a mapping lacking the
`nvcc` key, the raised error is the dict `KeyError` for `"nvcc"`, and its
message does not name the source file `k.cu` — contradicting the claim that
the message names both the resolved identifier and the source file. -/
theorem compile_missing_key_counterexample :
    @compile Unit Unit Unit Unit Unit Unit ["k.cu"] () () () () ()
        ⟨some [], none⟩ () = .error (.keyError "nvcc")
    ∧ containsSub "k.cu" (compileErrMsg (.keyError "nvcc")) = false := by
  constructor
  · rfl
  · decide

/-- C2 (amended): when the `extra_postargs` mapping lacks the entry for the
toolchain key resolved from the first source file's extension, `compile`
raises the dict lookup error (`KeyError`) carrying exactly that key — its
message names the key but not the source file — it does not fall back to an
empty flag list, and it performs zero calls to the base compile operation
(`.error` carries no delegated-call record). -/
theorem compile_missing_key_raises {α β γ δ ε ζ : Type} (s : String)
    (rest : List String) (o : α) (m : β) (i : γ) (d : δ) (pre : ε)
    (pa : PostArgs) (dep : ζ) (key : String)
    (hkey : key = if splitextExt s = ".cu" then "nvcc" else "gcc")
    (hmiss : (if splitextExt s = ".cu" then pa.nvcc else pa.gcc) = none) :
    compile (s :: rest) o m i d pre pa dep = .error (.keyError key)
    ∧ containsSub key (compileErrMsg (.keyError key)) = true := by
  by_cases hc : splitextExt s = ".cu" <;>
    simp [hc] at hkey hmiss <;> subst hkey <;>
    exact ⟨by simp [compile, hc, hmiss], by decide⟩

/-- C2 witness: concrete instance of the amended claim at `["k.cu"]` with a
mapping lacking the `nvcc` key. -/
theorem compile_missing_key_raises_witness :
    @compile Unit Unit Unit Unit Unit Unit ["k.cu"] () () () () ()
        ⟨some [], none⟩ () = .error (.keyError "nvcc")
    ∧ containsSub "nvcc" (compileErrMsg (.keyError "nvcc")) = true :=
  compile_missing_key_raises "k.cu" [] () () () () () ⟨some [], none⟩ ()
    "nvcc" (by decide) (by decide)

/-- C3: whenever `compile` delegates to the base compile operation, the
`sources`, `output_dir`, `macros`, `include_dirs`, `debug`,
`extra_preargs` and `depends` arguments of the delegated call are exactly
the caller-supplied values; only the postargs position changes, to the flag
list selected from the mapping. -/
theorem compile_frame {α β γ δ ε ζ : Type} (s : String) (rest : List String)
    (o : α) (m : β) (i : γ) (d : δ) (pre : ε) (pa : PostArgs) (dep : ζ)
    (call : BaseCall α β γ δ ε ζ)
    (h : compile (s :: rest) o m i d pre pa dep = .ok call) :
    call.sources = s :: rest ∧ call.output_dir = o ∧ call.macroDefs = m
    ∧ call.include_dirs = i ∧ call.debug = d ∧ call.extra_preargs = pre
    ∧ call.depends = dep
    ∧ (if splitextExt s = ".cu" then pa.nvcc else pa.gcc) = some call.postargs := by
  by_cases hc : splitextExt s = ".cu" <;> simp [compile, hc] at h
  · rcases hnv : pa.nvcc with _ | l <;> rw [hnv] at h <;> simp at h
    subst h; simp [hc]
  · rcases hg : pa.gcc with _ | l <;> rw [hg] at h <;> simp at h
    subst h; simp [hc]

/-- C3 witness: concrete host-side invocation, all pass-through arguments
unchanged in the delegated call. -/
theorem compile_frame_witness :
    (⟨["a.c"], (), (), (), (), (), ["-O2"], ()⟩
        : BaseCall Unit Unit Unit Unit Unit Unit).sources = ["a.c"]
    ∧ (⟨["a.c"], (), (), (), (), (), ["-O2"], ()⟩
        : BaseCall Unit Unit Unit Unit Unit Unit).output_dir = ()
    ∧ (⟨["a.c"], (), (), (), (), (), ["-O2"], ()⟩
        : BaseCall Unit Unit Unit Unit Unit Unit).macroDefs = ()
    ∧ (⟨["a.c"], (), (), (), (), (), ["-O2"], ()⟩
        : BaseCall Unit Unit Unit Unit Unit Unit).include_dirs = ()
    ∧ (⟨["a.c"], (), (), (), (), (), ["-O2"], ()⟩
        : BaseCall Unit Unit Unit Unit Unit Unit).debug = ()
    ∧ (⟨["a.c"], (), (), (), (), (), ["-O2"], ()⟩
        : BaseCall Unit Unit Unit Unit Unit Unit).extra_preargs = ()
    ∧ (⟨["a.c"], (), (), (), (), (), ["-O2"], ()⟩
        : BaseCall Unit Unit Unit Unit Unit Unit).depends = ()
    ∧ (if splitextExt "a.c" = ".cu"
        then (⟨some ["-O2"], some ["-arch=sm_35"]⟩ : PostArgs).nvcc
        else (⟨some ["-O2"], some ["-arch=sm_35"]⟩ : PostArgs).gcc) =
      some (⟨["a.c"], (), (), (), (), (), ["-O2"], ()⟩
        : BaseCall Unit Unit Unit Unit Unit Unit).postargs :=
  compile_frame "a.c" [] () () () () () ⟨some ["-O2"], some ["-arch=sm_35"]⟩ ()
    ⟨["a.c"], (), (), (), (), (), ["-O2"], ()⟩ rfl

/-- `which` is first-match-wins over the search path: it returns `d/name`
for the first directory `d` whose candidate passes the access check. -/
theorem which_eq_find (name : String) (dirs : List Path) (fs : FS) :
    which name dirs fs =
      (dirs.find? (fun d => fsExec fs (d ++ [name]))).map (fun d => d ++ [name]) := by
  induction dirs with
  | nil => rfl
  | cons d rest ih =>
    by_cases hd : fsExec fs (d ++ [name]) <;> simp [which, List.find?_cons, hd, ih]

/-- C4: with `CUDAHOME` set to `h`, `locate_cuda` is independent of the
executable search path (no search is performed, even when no matching
executable exists anywhere on it), the root is `h` verbatim and the compiler
path is derived as `h/bin/nvcc`; any returned descriptor carries exactly
these two paths. -/
theorem locate_cudahome_verbatim (h : Path) (p1 p2 : List Path) (fs : FS) :
    locate_cuda (some h) p1 fs = locate_cuda (some h) p2 fs
    ∧ resolveHome (some h) p1 fs = .ok (h, h ++ ["bin", "nvcc"])
    ∧ usesHomeVerbatim h (locate_cuda (some h) p1 fs) = true := by
  refine ⟨rfl, rfl, ?_⟩
  simp only [locate_cuda, resolveHome]
  cases hf : (cudaChecks h (h ++ ["bin", "nvcc"])).find?
      (fun kv => !(fsExists fs kv.2)) with
  | some kv => simp [usesHomeVerbatim]
  | none => simp [usesHomeVerbatim]

/-- C5: with `CUDAHOME` unset, the search is first-match-wins over the
directories of the executable search path, the root is the parent-of-parent
of the located executable, and when the four derived paths
(root, executable, `root/include`, `root/lib/x64`) all exist, `locate_cuda`
returns exactly them and does not raise. -/
theorem locate_search_first_match (pathDirs : List Path) (fs : FS) (nv : Path)
    (hw : which "nvcc" pathDirs fs = some nv)
    (hall : (cudaChecks nv.dropLast.dropLast nv).all
      (fun kv => fsExists fs kv.2) = true) :
    which "nvcc" pathDirs fs =
      (pathDirs.find? (fun d => fsExec fs (d ++ ["nvcc"]))).map (fun d => d ++ ["nvcc"])
    ∧ locate_cuda none pathDirs fs =
        .ok ⟨nv.dropLast.dropLast, nv, nv.dropLast.dropLast ++ ["include"],
             nv.dropLast.dropLast ++ ["lib", "x64"]⟩ := by
  refine ⟨which_eq_find _ _ _, ?_⟩
  have hfind : (cudaChecks nv.dropLast.dropLast nv).find?
      (fun kv => !(fsExists fs kv.2)) = none := by
    rw [List.find?_eq_none]
    intro kv hkv
    have := List.all_eq_true.mp hall kv hkv
    simp [this]
  simp [locate_cuda, resolveHome, hw, hfind]

/-- Concrete toolchain root used by the locator witnesses. -/
def cudaRootW : Path := ["", "usr", "local", "cuda"]

/-- Concrete compiler path under `cudaRootW`. -/
def nvccW : Path := cudaRootW ++ ["bin", "nvcc"]

/-- A filesystem holding a complete toolchain at `cudaRootW`, with the
compiler executable. -/
def fsW : FS :=
  ⟨[cudaRootW, nvccW, cudaRootW ++ ["include"], cudaRootW ++ ["lib", "x64"]],
   [nvccW]⟩

/-- C5 witness: a two-directory search path whose first directory has no
match; the second match is taken, the root derived, and the full descriptor
returned. -/
theorem locate_search_first_match_witness :
    which "nvcc" [["", "bin"], cudaRootW ++ ["bin"]] fsW =
      (([["", "bin"], cudaRootW ++ ["bin"]] : List Path).find?
        (fun d => fsExec fsW (d ++ ["nvcc"]))).map (fun d => d ++ ["nvcc"])
    ∧ locate_cuda none [["", "bin"], cudaRootW ++ ["bin"]] fsW =
        .ok ⟨cudaRootW, nvccW, cudaRootW ++ ["include"],
             cudaRootW ++ ["lib", "x64"]⟩ :=
  locate_search_first_match [["", "bin"], cudaRootW ++ ["bin"]] fsW nvccW rfl rfl

/-- C6: with `CUDAHOME` unset and no matching executable on the search
path, `locate_cuda` raises the not-found error (and nothing else, so
exactly once), whose message names the expected executable `nvcc` and the
override variable `CUDAHOME`; the path-invalid error is never raised in
that run. -/
theorem locate_notfound (pathDirs : List Path) (fs : FS)
    (hw : which "nvcc" pathDirs fs = none) :
    locate_cuda none pathDirs fs = .error .notFound
    ∧ containsSub "nvcc" (locateErrMsg .notFound) = true
    ∧ containsSub "CUDAHOME" (locateErrMsg .notFound) = true
    ∧ isPathInvalid (locate_cuda none pathDirs fs) = false := by
  have h1 : locate_cuda none pathDirs fs = .error .notFound := by
    simp [locate_cuda, resolveHome, hw]
  exact ⟨h1, by decide, by decide, by rw [h1]; rfl⟩

/-- C6 witness: an empty filesystem and a one-directory search path. -/
theorem locate_notfound_witness :
    locate_cuda none [["", "bin"]] ⟨[], []⟩ = .error .notFound
    ∧ containsSub "nvcc" (locateErrMsg .notFound) = true
    ∧ containsSub "CUDAHOME" (locateErrMsg .notFound) = true
    ∧ isPathInvalid (locate_cuda none [["", "bin"]] ⟨[], []⟩) = false :=
  locate_notfound [["", "bin"]] ⟨[], []⟩ rfl

/-- C7: once `home` and `nvcc` are resolved, if any of the four required
paths is missing the path-invalid error identifies exactly the first
missing one in the fixed order `home`, `nvcc`, `include`, `lib64`. -/
theorem locate_validation_order (env : Option Path) (pathDirs : List Path)
    (fs : FS) (home nvcc : Path)
    (hres : resolveHome env pathDirs fs = .ok (home, nvcc))
    (k : String) (v : Path)
    (hfind : (cudaChecks home nvcc).find?
      (fun kv => !(fsExists fs kv.2)) = some (k, v)) :
    locate_cuda env pathDirs fs = .error (.pathInvalid k v)
    ∧ (k, v) = (if fsExists fs home = false then ("home", home)
        else if fsExists fs nvcc = false then ("nvcc", nvcc)
        else if fsExists fs (home ++ ["include"]) = false then
          ("include", home ++ ["include"])
        else ("lib64", home ++ ["lib", "x64"])) := by
  constructor
  · simp [locate_cuda, hres, hfind]
  · cases h1 : fsExists fs home <;> cases h2 : fsExists fs nvcc <;>
      cases h3 : fsExists fs (home ++ ["include"]) <;>
      cases h4 : fsExists fs (home ++ ["lib", "x64"]) <;>
      simp [cudaChecks, List.find?_cons, h1, h2, h3, h4] at hfind ⊢ <;>
      obtain ⟨hk, hv⟩ := hfind <;> subst hk <;> subst hv <;> simp

/-- C7 witness: a root whose `include` directory is the first missing path
(`home` and `nvcc` exist). -/
theorem locate_validation_order_witness :
    locate_cuda (some cudaRootW) [] ⟨[cudaRootW, nvccW], []⟩ =
      .error (.pathInvalid "include" (cudaRootW ++ ["include"]))
    ∧ (("include", cudaRootW ++ ["include"]) : String × Path) =
        (if fsExists ⟨[cudaRootW, nvccW], []⟩ cudaRootW = false then
          ("home", cudaRootW)
        else if fsExists ⟨[cudaRootW, nvccW], []⟩ nvccW = false then
          ("nvcc", nvccW)
        else if fsExists ⟨[cudaRootW, nvccW], []⟩ (cudaRootW ++ ["include"]) = false then
          ("include", cudaRootW ++ ["include"])
        else ("lib64", cudaRootW ++ ["lib", "x64"])) :=
  locate_validation_order (some cudaRootW) [] ⟨[cudaRootW, nvccW], []⟩
    cudaRootW nvccW rfl "include" (cudaRootW ++ ["include"]) rfl

/-- C8: whenever `locate_cuda` returns a descriptor, all four of its paths
exist on the probed filesystem — no partially valid descriptor is ever
returned. -/
theorem locate_descriptor_valid (env : Option Path) (pathDirs : List Path)
    (fs : FS) (cfg : CudaConfig)
    (hok : locate_cuda env pathDirs fs = .ok cfg) :
    fsExists fs cfg.home = true ∧ fsExists fs cfg.nvcc = true
    ∧ fsExists fs cfg.include_ = true ∧ fsExists fs cfg.lib64 = true := by
  cases hres : resolveHome env pathDirs fs with
  | error e => simp [locate_cuda, hres] at hok
  | ok hn =>
    obtain ⟨home, nvcc⟩ := hn
    cases hf : (cudaChecks home nvcc).find? (fun kv => !(fsExists fs kv.2)) with
    | some kv => simp [locate_cuda, hres, hf] at hok
    | none =>
      simp [locate_cuda, hres, hf] at hok
      have hall := List.find?_eq_none.mp hf
      have e1 := hall ("home", home) (by simp [cudaChecks])
      have e2 := hall ("nvcc", nvcc) (by simp [cudaChecks])
      have e3 := hall ("include", home ++ ["include"]) (by simp [cudaChecks])
      have e4 := hall ("lib64", home ++ ["lib", "x64"]) (by simp [cudaChecks])
      simp at e1 e2 e3 e4
      subst hok
      exact ⟨e1, e2, e3, e4⟩

/-- C8 witness: the complete toolchain filesystem via `CUDAHOME`. -/
theorem locate_descriptor_valid_witness :
    fsExists fsW (CudaConfig.mk cudaRootW nvccW (cudaRootW ++ ["include"])
      (cudaRootW ++ ["lib", "x64"])).home = true
    ∧ fsExists fsW (CudaConfig.mk cudaRootW nvccW (cudaRootW ++ ["include"])
      (cudaRootW ++ ["lib", "x64"])).nvcc = true
    ∧ fsExists fsW (CudaConfig.mk cudaRootW nvccW (cudaRootW ++ ["include"])
      (cudaRootW ++ ["lib", "x64"])).include_ = true
    ∧ fsExists fsW (CudaConfig.mk cudaRootW nvccW (cudaRootW ++ ["include"])
      (cudaRootW ++ ["lib", "x64"])).lib64 = true :=
  locate_descriptor_valid (some cudaRootW) [] fsW
    (CudaConfig.mk cudaRootW nvccW (cudaRootW ++ ["include"])
      (cudaRootW ++ ["lib", "x64"])) rfl

end BboxSetup
